import Mathlib

/-!
Verification of `zm_geniso` from `src/src/iso.c` of the zm repository.

The C function is a single straight-line procedure that builds a cloud-init
ISO image by calling the external libraries libisofs / libisoburn / libburn,
then streams the resulting burn source into an output file.  We embed it as a
pure Lean function over an explicit environment `Env` recording the outcome of
every external call the function makes:

  * one Boolean per fallible library call (initialization, image creation,
    root lookup, the two node additions, write-option creation, burn-source
    creation), `true` meaning the call reported success;
  * `open_errno`: `none` when `open(output, O_CREAT|O_TRUNC|O_WRONLY, 0644)`
    succeeds, `some e` when it fails and sets `errno = e`;
  * `events`: the successive behaviour of the write loop's iterations.
    `LoopEvent.readErr` is a read returning a negative chunk,
    `LoopEvent.eof` is a read returning 0, and `LoopEvent.data bs w` is a
    read returning the bytes `bs` (a positive chunk) followed by a
    `write(fd, buffer, chunk)` that actually wrote `w` bytes.

The observable behaviour of a run is the returned C `int` together with an
`Effects` record: whether the output file was opened (hence created or
truncated), how many times the descriptor was closed, the bytes written into
the file, the image and write options handed to
`iso_image_create_burn_source`, and the loop events never consumed (reads or
writes that were never performed).  A run whose event list is exhausted
before the loop terminates has no return value (`none`).
-/

namespace ZM

/-- The POSIX `EINVAL` value, as on Linux. -/
def EINVAL : Nat := 22

/-- State of a libisofs `IsoImage` as far as `iso.c` manipulates it: the name
given to `iso_image_new`, the volume identifier, and the root directory's
children as (name in the image, source path) pairs in insertion order. -/
structure IsoImage where
  name : String
  volume_id : String
  children : List (String × String)
  deriving Repr, DecidableEq

/-- State of a libisofs `IsoWriteOpts` as far as `iso.c` manipulates it. -/
structure IsoWriteOpts where
  level : Nat
  rockridge : Bool
  joliet : Bool
  deriving Repr, DecidableEq

/-- Model of `iso_image_new(name, &image)`: libisofs creates an image whose
volume id is initialised from `name`, with an empty root directory. -/
def iso_image_new (nm : String) : IsoImage :=
  { name := nm, volume_id := nm, children := [] }

/-- Model of `iso_image_set_volume_id(image, v)`. -/
def iso_image_set_volume_id (img : IsoImage) (v : String) : IsoImage :=
  { img with volume_id := v }

/-- Model of a successful `iso_tree_add_new_node(image, root, nm, path, &node)`:
appends a file node named `nm` with content taken from `path` to the root. -/
def iso_tree_add_new_node (img : IsoImage) (nm path : String) : IsoImage :=
  { img with children := img.children ++ [(nm, path)] }

/-- Model of `iso_write_opts_new(&opts, level)`. -/
def iso_write_opts_new (lvl : Nat) : IsoWriteOpts :=
  { level := lvl, rockridge := false, joliet := false }

/-- Model of `iso_write_opts_set_rockridge(opts, b)`. -/
def iso_write_opts_set_rockridge (o : IsoWriteOpts) (b : Nat) : IsoWriteOpts :=
  { o with rockridge := b != 0 }

/-- Model of `iso_write_opts_set_joliet(opts, b)`. -/
def iso_write_opts_set_joliet (o : IsoWriteOpts) (b : Nat) : IsoWriteOpts :=
  { o with joliet := b != 0 }

/-- One iteration of the write loop in `zm_geniso`, as observed from outside:
the result of the burn source read and, when the read produced data, how many
bytes the subsequent `write` reported. -/
inductive LoopEvent where
  | readErr : LoopEvent
  | eof : LoopEvent
  | data : List Nat → Nat → LoopEvent
  deriving Repr, DecidableEq

/-- A read of a positive chunk whose `write` wrote the whole chunk. -/
def LoopEvent.isGood : LoopEvent → Bool
  | LoopEvent.data bs w => w == bs.length
  | _ => false

/-- A failing iteration: a negative-chunk read, or a short `write`. -/
def LoopEvent.isFail : LoopEvent → Bool
  | LoopEvent.readErr => true
  | LoopEvent.eof => false
  | LoopEvent.data bs w => !(w == bs.length)

/-- Environment of one `zm_geniso` run: outcome of each external call, in the
order the C code makes them. -/
structure Env where
  isoburn_init_ok : Bool
  iso_init_ok : Bool
  iso_image_new_ok : Bool
  get_root_ok : Bool
  add_user_ok : Bool
  add_meta_ok : Bool
  write_opts_new_ok : Bool
  burn_source_ok : Bool
  open_errno : Option Nat
  events : List LoopEvent
  deriving Repr, DecidableEq

/-- Observable effects of one `zm_geniso` run. -/
structure Effects where
  opened : Bool
  closes : Nat
  fileBytes : List Nat
  burnImage : Option (IsoImage × IsoWriteOpts)
  leftover : List LoopEvent
  deriving Repr, DecidableEq

/-- Effects of a run that returns before `open` is reached: the output path is
never opened, created or truncated, nothing is written, no descriptor is
closed, no burn source is serialized, and no loop event is consumed. -/
def noEffects (env : Env) : Effects :=
  { opened := false, closes := 0, fileBytes := [], burnImage := none,
    leftover := env.events }

/-- The write loop of `zm_geniso` (`while (1) { ... }`), run over the event
list with `acc` the bytes already written to the file.  Returns
`some (ok, fileBytes, leftover)` where `ok` is `true` iff the loop ended at
`chunk == 0` (so `r` stayed `0` in the C code), `fileBytes` the final content
of the output file and `leftover` the events never performed; `none` when the
event list is exhausted before the loop terminates. -/
def writeLoop : List LoopEvent → List Nat → Option (Bool × List Nat × List LoopEvent)
  | [], _ => none
  | LoopEvent.readErr :: rest, acc => some (false, acc, rest)
  | LoopEvent.eof :: rest, acc => some (true, acc, rest)
  | LoopEvent.data bs w :: rest, acc =>
      if w = bs.length then writeLoop rest (acc ++ bs)
      else some (false, acc ++ bs.take w, rest)

/-- The bytes produced by the burn source up to end-of-stream: the
concatenation of all chunks before the first `eof`, defined (`some`) exactly
when no read error and no short write occurs before `eof` is reached. -/
def produced : List LoopEvent → Option (List Nat)
  | [] => none
  | LoopEvent.readErr :: _ => none
  | LoopEvent.eof :: _ => some []
  | LoopEvent.data bs w :: rest =>
      if w = bs.length then (produced rest).map (fun p => bs ++ p) else none

/-- Volume name handed to `iso_image_new` and `iso_image_set_volume_id`. -/
def volName : String := "cidata"

/-- Name of the first file added to the ISO root. -/
def userDataName : String := "user-data"

/-- Name of the second file added to the ISO root. -/
def metaDataName : String := "meta-data"

/-- Shallow embedding of `zm_geniso(output, user_data, meta_data)` from
`src/src/iso.c`.  `none` arguments are C null pointers.  The function follows
the C control flow line by line: the null check, `isoburn_initialize`,
`iso_init`, `iso_image_new("cidata", &image)`,
`iso_image_set_volume_id(image, "cidata")`, `iso_image_get_root`, the two
`iso_tree_add_new_node` calls (returning 125 on failure),
`iso_write_opts_new(&opts, 2)` with Rock Ridge and Joliet switched on,
`iso_image_create_burn_source`, `open` on the output path, the write loop,
`close(fd)`, and the final `r < 0 ? 125 : 0`. -/
def zm_geniso (output user_data meta_data : Option String) (env : Env) :
    Option (Nat × Effects) :=
  match output, user_data, meta_data with
  | some _, some u, some m =>
    if !env.isoburn_init_ok then some (126, noEffects env)
    else if !env.iso_init_ok then some (126, noEffects env)
    else if !env.iso_image_new_ok then some (126, noEffects env)
    else
      let img := iso_image_set_volume_id (iso_image_new volName) volName
      if !env.get_root_ok then some (126, noEffects env)
      else if !env.add_user_ok then some (125, noEffects env)
      else
        let img := iso_tree_add_new_node img userDataName u
        if !env.add_meta_ok then some (125, noEffects env)
        else
          let img := iso_tree_add_new_node img metaDataName m
          if !env.write_opts_new_ok then some (126, noEffects env)
          else
            let opts := iso_write_opts_set_joliet
              (iso_write_opts_set_rockridge (iso_write_opts_new 2) 1) 1
            if !env.burn_source_ok then some (126, noEffects env)
            else
              match env.open_errno with
              | some e => some (e, { noEffects env with burnImage := some (img, opts) })
              | none =>
                match writeLoop env.events [] with
                | none => none
                | some (ok, bytes, rest) =>
                    some (if ok then 0 else 125,
                      { opened := true, closes := 1, fileBytes := bytes,
                        burnImage := some (img, opts), leftover := rest })
  | _, _, _ => some (EINVAL, noEffects env)

/-- All eight setup calls succeeded. -/
def Env.setupOk (env : Env) : Bool :=
  env.isoburn_init_ok && env.iso_init_ok && env.iso_image_new_ok &&
  env.get_root_ok && env.add_user_ok && env.add_meta_ok &&
  env.write_opts_new_ok && env.burn_source_ok

/-- Return code of the first failing setup call, `none` when all succeed,
mirroring the order of checks in `zm_geniso`. -/
def Env.setupCode (env : Env) : Option Nat :=
  if !env.isoburn_init_ok then some 126
  else if !env.iso_init_ok then some 126
  else if !env.iso_image_new_ok then some 126
  else if !env.get_root_ok then some 126
  else if !env.add_user_ok then some 125
  else if !env.add_meta_ok then some 125
  else if !env.write_opts_new_ok then some 126
  else if !env.burn_source_ok then some 126
  else none

/-- The image state passed to `iso_image_create_burn_source` when the setup
phase succeeds with payload paths `u` and `m`. -/
def builtImage (u m : String) : IsoImage :=
  iso_tree_add_new_node
    (iso_tree_add_new_node
      (iso_image_set_volume_id (iso_image_new volName) volName) userDataName u)
    metaDataName m

/-- The write options passed to `iso_image_create_burn_source`. -/
def builtOpts : IsoWriteOpts :=
  iso_write_opts_set_joliet (iso_write_opts_set_rockridge (iso_write_opts_new 2) 1) 1

theorem zm_geniso_eq (o u m : String) (env : Env) :
    zm_geniso (some o) (some u) (some m) env =
      match env.setupCode with
      | some c => some (c, noEffects env)
      | none =>
        match env.open_errno with
        | some e => some (e, { noEffects env with burnImage := some (builtImage u m, builtOpts) })
        | none =>
          match writeLoop env.events [] with
          | none => none
          | some (ok, bytes, rest) =>
              some (if ok then 0 else 125,
                { opened := true, closes := 1, fileBytes := bytes,
                  burnImage := some (builtImage u m, builtOpts), leftover := rest }) := by
  rcases env with ⟨b1, b2, b3, b4, b5, b6, b7, b8, oe, evs⟩
  cases b1 <;> cases b2 <;> cases b3 <;> cases b4 <;> cases b5 <;> cases b6 <;>
    cases b7 <;> cases b8 <;> rfl

theorem setupCode_none_iff (env : Env) :
    env.setupCode = none ↔ env.setupOk = true := by
  rcases env with ⟨b1, b2, b3, b4, b5, b6, b7, b8, oe, evs⟩
  cases b1 <;> cases b2 <;> cases b3 <;> cases b4 <;> cases b5 <;> cases b6 <;>
    cases b7 <;> cases b8 <;> simp [Env.setupCode, Env.setupOk]

theorem setupCode_values (env : Env) :
    env.setupCode = none ∨ env.setupCode = some 125 ∨ env.setupCode = some 126 := by
  rcases env with ⟨b1, b2, b3, b4, b5, b6, b7, b8, oe, evs⟩
  cases b1 <;> cases b2 <;> cases b3 <;> cases b4 <;> cases b5 <;> cases b6 <;>
    cases b7 <;> cases b8 <;> simp [Env.setupCode]

theorem setupCode_125 (env : Env) (h : env.setupCode = some 125) :
    env.add_user_ok = false ∨ env.add_meta_ok = false := by
  rcases env with ⟨b1, b2, b3, b4, b5, b6, b7, b8, oe, evs⟩
  cases b1 <;> cases b2 <;> cases b3 <;> cases b4 <;> cases b5 <;> cases b6 <;>
    cases b7 <;> cases b8 <;> simp_all [Env.setupCode]

theorem writeLoop_true (evs : List LoopEvent) :
    ∀ acc bs rest, writeLoop evs acc = some (true, bs, rest) →
      ∃ p, produced evs = some p ∧ bs = acc ++ p := by
  induction evs with
  | nil => intro acc bs rest h; simp [writeLoop] at h
  | cons e tail ih =>
    intro acc bs rest h
    cases e with
    | readErr => simp [writeLoop] at h
    | eof =>
      simp only [writeLoop, Option.some.injEq, Prod.mk.injEq] at h
      exact ⟨[], rfl, by simp [h.2.1.symm]⟩
    | data bytes w =>
      by_cases hw : w = bytes.length
      · rw [writeLoop, if_pos hw] at h
        obtain ⟨p, hp, hb⟩ := ih (acc ++ bytes) bs rest h
        refine ⟨bytes ++ p, ?_, by simp [hb]⟩
        rw [produced, if_pos hw, hp]
        rfl
      · rw [writeLoop, if_neg hw] at h
        simp at h

theorem writeLoop_false (evs : List LoopEvent) :
    ∀ acc bs rest, writeLoop evs acc = some (false, bs, rest) →
      produced evs = none := by
  induction evs with
  | nil => intro acc bs rest h; simp [writeLoop] at h
  | cons e tail ih =>
    intro acc bs rest h
    cases e with
    | readErr => rfl
    | eof => simp [writeLoop] at h
    | data bytes w =>
      by_cases hw : w = bytes.length
      · rw [writeLoop, if_pos hw] at h
        rw [produced, if_pos hw, ih (acc ++ bytes) bs rest h]
        rfl
      · rw [produced, if_neg hw]

theorem writeLoop_first_fail (pre : List LoopEvent) (fl : LoopEvent)
    (post : List LoopEvent) (hpre : ∀ e ∈ pre, e.isGood = true)
    (hf : fl.isFail = true) :
    ∀ acc, ∃ bs, writeLoop (pre ++ fl :: post) acc = some (false, bs, post) := by
  induction pre with
  | nil =>
    intro acc
    cases fl with
    | readErr => exact ⟨acc, rfl⟩
    | eof => simp [LoopEvent.isFail] at hf
    | data bytes w =>
      have hw : ¬ w = bytes.length := by
        simpa [LoopEvent.isFail] using hf
      exact ⟨acc ++ bytes.take w, by rw [List.nil_append, writeLoop, if_neg hw]⟩
  | cons e tail ih =>
    intro acc
    have he : e.isGood = true := hpre e (List.mem_cons_self e tail)
    have hpre' : ∀ x ∈ tail, x.isGood = true :=
      fun x hx => hpre x (List.mem_cons_of_mem e hx)
    cases e with
    | readErr => simp [LoopEvent.isGood] at he
    | eof => simp [LoopEvent.isGood] at he
    | data bytes w =>
      have hw : w = bytes.length := by simpa [LoopEvent.isGood] using he
      obtain ⟨bs, hbs⟩ := ih hpre' (acc ++ bytes)
      exact ⟨bs, by rw [List.cons_append, writeLoop, if_pos hw]; exact hbs⟩

theorem burnImage_built (o u m : String) (env : Env) (r : Nat) (eff : Effects)
    (img : IsoImage) (opts : IsoWriteOpts)
    (h : zm_geniso (some o) (some u) (some m) env = some (r, eff))
    (hb : eff.burnImage = some (img, opts)) :
    img = builtImage u m ∧ opts = builtOpts := by
  rw [zm_geniso_eq] at h
  rcases hsc : env.setupCode with _ | c
  · rw [hsc] at h
    rcases hoe : env.open_errno with _ | e
    · rw [hoe] at h
      rcases hwl : writeLoop env.events [] with _ | ⟨ok, bytes, rest⟩
      · rw [hwl] at h; exact absurd h (by simp)
      · rw [hwl] at h
        simp only [Option.some.injEq, Prod.mk.injEq] at h
        rw [← h.2] at hb
        simp only [Option.some.injEq, Prod.mk.injEq] at hb
        exact ⟨hb.1.symm, hb.2.symm⟩
    · rw [hoe] at h
      simp only [Option.some.injEq, Prod.mk.injEq] at h
      rw [← h.2] at hb
      simp only [Option.some.injEq, Prod.mk.injEq] at hb
      exact ⟨hb.1.symm, hb.2.symm⟩
  · rw [hsc] at h
    simp only [Option.some.injEq, Prod.mk.injEq] at h
    rw [← h.2] at hb
    exact absurd hb (by simp [noEffects])

/-- Sample output path used by concrete witnesses. -/
def sampleOut : String := "seed.iso"

/-- Sample user-data path used by concrete witnesses. -/
def sampleUser : String := "user.yaml"

/-- Sample meta-data path used by concrete witnesses. -/
def sampleMeta : String := "meta.yaml"

/-- An empty (but non-null) argument string. -/
def emptyArg : String := ""

/-- Environment in which every external call succeeds and the burn source
immediately reports end-of-stream. -/
def envOk : Env :=
  { isoburn_init_ok := true, iso_init_ok := true, iso_image_new_ok := true,
    get_root_ok := true, add_user_ok := true, add_meta_ok := true,
    write_opts_new_ok := true, burn_source_ok := true,
    open_errno := none, events := [LoopEvent.eof] }

/-- Environment in which the first `iso_tree_add_new_node` call fails, as it
does when the user-data path cannot be stat'ed. -/
def envAddFail : Env := { envOk with add_user_ok := false }

/-- Environment in which `open` on the output path fails with `ENOENT` (2). -/
def envOpenFail : Env := { envOk with open_errno := some 2, events := [] }

/-- Environment in which the first burn-source read returns a negative chunk. -/
def envReadFail : Env := { envOk with events := [LoopEvent.readErr] }

/-- Effects of a run under `envOk`: file opened, closed once, zero bytes
written, the built image and options handed to the encoder. -/
def effOk : Effects :=
  { opened := true, closes := 1, fileBytes := [],
    burnImage := some (builtImage sampleUser sampleMeta, builtOpts),
    leftover := [] }

/-- C2: on every call of `zm_geniso`, the image handed to the encoder has
volume identifier `cidata` and its root contains exactly the two files
`user-data` (with the user_data payload) and `meta-data` (with the meta_data
payload), in that order and nothing else. -/
theorem zm_geniso_image_contents (o u m : String) (env : Env) (r : Nat)
    (eff : Effects) (img : IsoImage) (opts : IsoWriteOpts)
    (h : zm_geniso (some o) (some u) (some m) env = some (r, eff))
    (hb : eff.burnImage = some (img, opts)) :
    img.volume_id = "cidata" ∧
    img.children = [("user-data", u), ("meta-data", m)] := by
  obtain ⟨himg, -⟩ := burnImage_built o u m env r eff img opts h hb
  subst himg
  constructor
  · rfl
  · rfl

theorem zm_geniso_image_contents_witness :
    (builtImage sampleUser sampleMeta).volume_id = "cidata" ∧
    (builtImage sampleUser sampleMeta).children =
      [("user-data", sampleUser), ("meta-data", sampleMeta)] :=
  zm_geniso_image_contents sampleOut sampleUser sampleMeta envOk 0 effOk
    (builtImage sampleUser sampleMeta) builtOpts rfl rfl

/-- C6: on every call of `zm_geniso`, the write options handed to the encoder
request ISO level 2 with both Rock Ridge and Joliet enabled. -/
theorem zm_geniso_write_options (o u m : String) (env : Env) (r : Nat)
    (eff : Effects) (img : IsoImage) (opts : IsoWriteOpts)
    (h : zm_geniso (some o) (some u) (some m) env = some (r, eff))
    (hb : eff.burnImage = some (img, opts)) :
    opts.level = 2 ∧ opts.rockridge = true ∧ opts.joliet = true := by
  obtain ⟨-, hopts⟩ := burnImage_built o u m env r eff img opts h hb
  subst hopts
  exact ⟨rfl, rfl, rfl⟩

theorem zm_geniso_write_options_witness :
    builtOpts.level = 2 ∧ builtOpts.rockridge = true ∧ builtOpts.joliet = true :=
  zm_geniso_write_options sampleOut sampleUser sampleMeta envOk 0 effOk
    (builtImage sampleUser sampleMeta) builtOpts rfl rfl

/-- C3 counterexample: with an empty (non-null) user_data argument the null
check passes and the function does not return `EINVAL`; in the realistic
environment where the node addition for the empty path fails, it returns
125. -/
theorem zm_geniso_empty_arg_not_einval :
    zm_geniso (some sampleOut) (some emptyArg) (some sampleMeta) envAddFail =
      some (125, noEffects envAddFail) ∧ (125 : Nat) ≠ EINVAL :=
  ⟨rfl, by decide⟩

/-- C3 (amended): on every call of `zm_geniso` where one of the three
arguments is null, the function returns `EINVAL` and performs no other
action: nothing is opened, written or closed and no event is consumed. -/
theorem zm_geniso_null_einval (o u m : Option String) (env : Env)
    (h : o = none ∨ u = none ∨ m = none) :
    zm_geniso o u m env = some (EINVAL, noEffects env) := by
  rcases o with _ | o'
  · cases u <;> cases m <;> rfl
  · rcases u with _ | u'
    · cases m <;> rfl
    · rcases m with _ | m'
      · rfl
      · simp at h

theorem zm_geniso_null_einval_witness :
    zm_geniso none (some sampleUser) (some sampleMeta) envOk =
      some (EINVAL, noEffects envOk) :=
  zm_geniso_null_einval none (some sampleUser) (some sampleMeta) envOk (Or.inl rfl)

/-- C9: every run that fails before the output file is opened — a null
argument or any setup failure — returns with `noEffects`: the output path was
never opened (hence never created or truncated) and nothing was written. -/
theorem zm_geniso_no_output_before_open (o u m : Option String) (env : Env)
    (h : o = none ∨ u = none ∨ m = none ∨ env.setupOk = false) :
    ∃ r, zm_geniso o u m env = some (r, noEffects env) ∧
      (noEffects env).opened = false ∧ (noEffects env).fileBytes = [] := by
  rcases o with _ | o'
  · exact ⟨EINVAL, by cases u <;> cases m <;> rfl, rfl, rfl⟩
  · rcases u with _ | u'
    · exact ⟨EINVAL, by cases m <;> rfl, rfl, rfl⟩
    · rcases m with _ | m'
      · exact ⟨EINVAL, rfl, rfl, rfl⟩
      · have hs : env.setupOk = false := by
          rcases h with h | h | h | h
          · exact absurd h (by simp)
          · exact absurd h (by simp)
          · exact absurd h (by simp)
          · exact h
        have hex : ∃ c, env.setupCode = some c := by
          rcases setupCode_values env with h1 | h1 | h1
          · rw [setupCode_none_iff, hs] at h1; exact absurd h1 (by simp)
          · exact ⟨125, h1⟩
          · exact ⟨126, h1⟩
        obtain ⟨c, hc⟩ := hex
        refine ⟨c, ?_, rfl, rfl⟩
        rw [zm_geniso_eq, hc]

theorem zm_geniso_no_output_before_open_witness :
    ∃ r, zm_geniso none (some sampleUser) (some sampleMeta) envOk =
      some (r, noEffects envOk) ∧
      (noEffects envOk).opened = false ∧ (noEffects envOk).fileBytes = [] :=
  zm_geniso_no_output_before_open none (some sampleUser) (some sampleMeta) envOk
    (Or.inl rfl)

/-- C10: on every run of `zm_geniso` in which the output descriptor was
opened, it is closed exactly once before the function returns, on the success
path and on every failure path of the write loop alike. -/
theorem zm_geniso_close_exactly_once (o u m : Option String) (env : Env)
    (r : Nat) (eff : Effects)
    (h : zm_geniso o u m env = some (r, eff)) (ho : eff.opened = true) :
    eff.closes = 1 := by
  have hnull : ∀ env₁ : Env, eff = noEffects env₁ → False := by
    intro env₁ he
    rw [he] at ho
    exact absurd ho (by simp [noEffects])
  rcases o with _ | o'
  · cases u <;> cases m <;>
      (simp only [zm_geniso, Option.some.injEq, Prod.mk.injEq] at h
       exact absurd h.2.symm (hnull env))
  · rcases u with _ | u'
    · cases m <;>
        (simp only [zm_geniso, Option.some.injEq, Prod.mk.injEq] at h
         exact absurd h.2.symm (hnull env))
    · rcases m with _ | m'
      · simp only [zm_geniso, Option.some.injEq, Prod.mk.injEq] at h
        exact absurd h.2.symm (hnull env)
      · rw [zm_geniso_eq] at h
        rcases hsc : env.setupCode with _ | c
        · rw [hsc] at h
          rcases hoe : env.open_errno with _ | e
          · rw [hoe] at h
            rcases hwl : writeLoop env.events [] with _ | ⟨ok, bytes, rest⟩
            · rw [hwl] at h; exact absurd h (by simp)
            · rw [hwl] at h
              simp only [Option.some.injEq, Prod.mk.injEq] at h
              rw [← h.2]
          · rw [hoe] at h
            simp only [Option.some.injEq, Prod.mk.injEq] at h
            rw [← h.2] at ho
            exact absurd ho (by simp [noEffects])
        · rw [hsc] at h
          simp only [Option.some.injEq, Prod.mk.injEq] at h
          exact absurd h.2.symm (hnull env)

theorem zm_geniso_close_exactly_once_witness :
    effOk.closes = 1 :=
  zm_geniso_close_exactly_once (some sampleOut) (some sampleUser)
    (some sampleMeta) envOk 0 effOk rfl rfl

/-- C1: a call of `zm_geniso` with non-null arguments returns 0 exactly when
the image is fully written: all setup calls succeeded, the output file was
opened, and the file contains, in order, every byte produced by the burn
source up to end-of-stream (`produced env.events`); every error path returns
a non-zero code.  The hypothesis `hwf` records the POSIX guarantee that a
failed `open` sets `errno` to a non-zero value. -/
theorem zm_geniso_zero_iff_fully_written (o u m : String) (env : Env)
    (r : Nat) (eff : Effects) (hwf : env.open_errno ≠ some 0)
    (h : zm_geniso (some o) (some u) (some m) env = some (r, eff)) :
    r = 0 ↔ env.setupOk = true ∧ env.open_errno = none ∧
      produced env.events = some eff.fileBytes := by
  rw [zm_geniso_eq] at h
  rcases hsc : env.setupCode with _ | c
  · rw [hsc] at h
    rcases hoe : env.open_errno with _ | e
    · rw [hoe] at h
      rcases hwl : writeLoop env.events [] with _ | ⟨ok, bytes, rest⟩
      · rw [hwl] at h; exact absurd h (by simp)
      · rw [hwl] at h
        simp only [Option.some.injEq, Prod.mk.injEq] at h
        obtain ⟨hr, heff⟩ := h
        cases ok with
        | false =>
          have hpn : produced env.events = none :=
            writeLoop_false env.events [] bytes rest hwl
          constructor
          · intro h0; rw [← hr] at h0; exact absurd h0 (by simp)
          · rintro ⟨-, -, hp⟩
            rw [hpn] at hp; exact absurd hp (by simp)
        | true =>
          obtain ⟨p, hp, hb⟩ := writeLoop_true env.events [] bytes rest hwl
          rw [List.nil_append] at hb
          constructor
          · intro _
            refine ⟨(setupCode_none_iff env).mp hsc, rfl, ?_⟩
            rw [← heff, hp, hb]
          · intro _
            rw [← hr]
            rfl
    · rw [hoe] at h
      simp only [Option.some.injEq, Prod.mk.injEq] at h
      have he0 : e ≠ 0 := by
        intro he; rw [he] at hoe; exact hwf hoe
      constructor
      · intro h0; rw [← h.1] at h0; exact absurd h0 he0
      · rintro ⟨-, hno, -⟩
        exact absurd hno (by simp)
  · rw [hsc] at h
    simp only [Option.some.injEq, Prod.mk.injEq] at h
    have hso : env.setupOk ≠ true := by
      intro hs
      rw [← setupCode_none_iff] at hs
      rw [hs] at hsc
      exact absurd hsc (by simp)
    have hc0 : c ≠ 0 := by
      rcases setupCode_values env with h1 | h1 | h1 <;> rw [h1] at hsc <;>
        simp only [Option.some.injEq, reduceCtorEq] at hsc <;> omega
    constructor
    · intro h0; rw [← h.1] at h0; exact absurd h0 hc0
    · rintro ⟨hs, -, -⟩; exact absurd hs hso

theorem zm_geniso_zero_iff_fully_written_witness :
    (0 = 0 ↔ envOk.setupOk = true ∧ envOk.open_errno = none ∧
      produced envOk.events = some effOk.fileBytes) :=
  zm_geniso_zero_iff_fully_written sampleOut sampleUser sampleMeta envOk 0 effOk
    (by decide) rfl

/-- C4 counterexample: a failure of the first `iso_tree_add_new_node` call is
a setup failure, yet `zm_geniso` returns 125, not 126. -/
theorem zm_geniso_node_add_failure_not_126 :
    zm_geniso (some sampleOut) (some sampleUser) (some sampleMeta) envAddFail =
      some (125, noEffects envAddFail) ∧ (125 : Nat) ≠ 126 :=
  ⟨rfl, by decide⟩

/-- C4 (amended): setup failures in library initialization, image creation,
root retrieval, write-options creation and burn-source creation return 126;
a failure adding either of the two file nodes returns 125; and 125 is
otherwise returned only for an I/O failure in the write loop, or as the
errno of a failed `open` when that errno happens to be 125. -/
theorem zm_geniso_error_codes (o u m : String) (env : Env) :
    (env.isoburn_init_ok = false →
      zm_geniso (some o) (some u) (some m) env = some (126, noEffects env)) ∧
    (env.isoburn_init_ok = true → env.iso_init_ok = false →
      zm_geniso (some o) (some u) (some m) env = some (126, noEffects env)) ∧
    (env.isoburn_init_ok = true → env.iso_init_ok = true →
      env.iso_image_new_ok = false →
      zm_geniso (some o) (some u) (some m) env = some (126, noEffects env)) ∧
    (env.isoburn_init_ok = true → env.iso_init_ok = true →
      env.iso_image_new_ok = true → env.get_root_ok = false →
      zm_geniso (some o) (some u) (some m) env = some (126, noEffects env)) ∧
    (env.isoburn_init_ok = true → env.iso_init_ok = true →
      env.iso_image_new_ok = true → env.get_root_ok = true →
      env.add_user_ok = false →
      zm_geniso (some o) (some u) (some m) env = some (125, noEffects env)) ∧
    (env.isoburn_init_ok = true → env.iso_init_ok = true →
      env.iso_image_new_ok = true → env.get_root_ok = true →
      env.add_user_ok = true → env.add_meta_ok = false →
      zm_geniso (some o) (some u) (some m) env = some (125, noEffects env)) ∧
    (env.isoburn_init_ok = true → env.iso_init_ok = true →
      env.iso_image_new_ok = true → env.get_root_ok = true →
      env.add_user_ok = true → env.add_meta_ok = true →
      env.write_opts_new_ok = false →
      zm_geniso (some o) (some u) (some m) env = some (126, noEffects env)) ∧
    (env.isoburn_init_ok = true → env.iso_init_ok = true →
      env.iso_image_new_ok = true → env.get_root_ok = true →
      env.add_user_ok = true → env.add_meta_ok = true →
      env.write_opts_new_ok = true → env.burn_source_ok = false →
      zm_geniso (some o) (some u) (some m) env = some (126, noEffects env)) ∧
    (∀ r eff, zm_geniso (some o) (some u) (some m) env = some (r, eff) →
      r = 125 →
      env.add_user_ok = false ∨ env.add_meta_ok = false ∨
      env.open_errno = some 125 ∨
      (env.setupOk = true ∧ env.open_errno = none ∧
        ∃ rest, writeLoop env.events [] = some (false, eff.fileBytes, rest))) := by
  refine ⟨?_, ?_, ?_, ?_, ?_, ?_, ?_, ?_, ?_⟩
  · intro h1; simp [zm_geniso, h1]
  · intro h1 h2; simp [zm_geniso, h1, h2]
  · intro h1 h2 h3; simp [zm_geniso, h1, h2, h3]
  · intro h1 h2 h3 h4; simp [zm_geniso, h1, h2, h3, h4]
  · intro h1 h2 h3 h4 h5; simp [zm_geniso, h1, h2, h3, h4, h5]
  · intro h1 h2 h3 h4 h5 h6; simp [zm_geniso, h1, h2, h3, h4, h5, h6]
  · intro h1 h2 h3 h4 h5 h6 h7; simp [zm_geniso, h1, h2, h3, h4, h5, h6, h7]
  · intro h1 h2 h3 h4 h5 h6 h7 h8
    simp [zm_geniso, h1, h2, h3, h4, h5, h6, h7, h8]
  · intro r eff h hr
    rw [zm_geniso_eq] at h
    rcases hsc : env.setupCode with _ | c
    · rw [hsc] at h
      rcases hoe : env.open_errno with _ | e
      · rw [hoe] at h
        rcases hwl : writeLoop env.events [] with _ | ⟨ok, bytes, rest⟩
        · rw [hwl] at h; exact absurd h (by simp)
        · rw [hwl] at h
          simp only [Option.some.injEq, Prod.mk.injEq] at h
          obtain ⟨hcode, heff⟩ := h
          cases ok with
          | false =>
            refine Or.inr (Or.inr (Or.inr ⟨(setupCode_none_iff env).mp hsc, rfl, rest, ?_⟩))
            rw [← heff]
          | true => rw [hr] at hcode; exact absurd hcode (by simp)
      · rw [hoe] at h
        simp only [Option.some.injEq, Prod.mk.injEq] at h
        rw [h.1, hr]
        exact Or.inr (Or.inr (Or.inl rfl))
    · rw [hsc] at h
      simp only [Option.some.injEq, Prod.mk.injEq] at h
      rw [h.1, hr] at hsc
      rcases setupCode_125 env hsc with h1 | h1
      · exact Or.inl h1
      · exact Or.inr (Or.inl h1)

theorem zm_geniso_error_codes_witness :
    zm_geniso (some sampleOut) (some sampleUser) (some sampleMeta) envAddFail =
      some (125, noEffects envAddFail) :=
  (zm_geniso_error_codes sampleOut sampleUser sampleMeta envAddFail).2.2.2.2.1
    rfl rfl rfl rfl rfl

/-- C5: when every setup call succeeds but `open` on the output path fails
with errno `e`, `zm_geniso` returns that positive value `e`. -/
theorem zm_geniso_open_failure_errno (o u m : String) (env : Env) (e : Nat)
    (hs : env.setupOk = true) (he : env.open_errno = some e) (hpos : 0 < e) :
    ∃ eff, zm_geniso (some o) (some u) (some m) env = some (e, eff) ∧ 0 < e := by
  rw [zm_geniso_eq, (setupCode_none_iff env).mpr hs, he]
  exact ⟨_, rfl, hpos⟩

theorem zm_geniso_open_failure_errno_witness :
    ∃ eff, zm_geniso (some sampleOut) (some sampleUser) (some sampleMeta)
      envOpenFail = some (2, eff) ∧ 0 < 2 :=
  zm_geniso_open_failure_errno sampleOut sampleUser sampleMeta envOpenFail 2
    rfl rfl (by decide)

/-- C7: when the write loop hits its first failure — a negative-chunk read or
a short write — after a prefix of fully-written chunks, `zm_geniso` performs
no further read or write (the events after the failing one are left over
untouched) and returns the I/O-failure code 125. -/
theorem zm_geniso_stops_at_first_failure (o u m : String) (env : Env)
    (pre post : List LoopEvent) (fl : LoopEvent)
    (hs : env.setupOk = true) (ho : env.open_errno = none)
    (hev : env.events = pre ++ fl :: post)
    (hpre : ∀ e ∈ pre, e.isGood = true) (hf : fl.isFail = true) :
    ∃ eff, zm_geniso (some o) (some u) (some m) env = some (125, eff) ∧
      eff.leftover = post := by
  obtain ⟨bs, hbs⟩ := writeLoop_first_fail pre fl post hpre hf []
  rw [zm_geniso_eq, (setupCode_none_iff env).mpr hs, ho, hev, hbs]
  exact ⟨_, rfl, rfl⟩

theorem zm_geniso_stops_at_first_failure_witness :
    ∃ eff, zm_geniso (some sampleOut) (some sampleUser) (some sampleMeta)
      envReadFail = some (125, eff) ∧ eff.leftover = [] :=
  zm_geniso_stops_at_first_failure sampleOut sampleUser sampleMeta envReadFail
    [] [] LoopEvent.readErr rfl rfl rfl (by intro e he; simp at he) rfl

end ZM
